import Mathlib

/-!
Shallow embedding of the Session & Progress Engine of `src/App.tsx`
(habit timer state machine, session ledger, streak update, goal-progress
aggregation).

Modelling conventions:
* React state (`habits`, `history`, `goals`) is gathered in `EngineState`.
  Each handler of the source becomes a pure state transformer.  When a
  handler calls `saveSession` from inside a `setHabits` functional updater
  (as `toggleRunHabit` does), React queues the inner `setHabits` /
  `setHistory` updaters and applies them after the outer one; the embedding
  composes the updates in that order.
* The current wall clock enters as explicit parameters: `now` (epoch
  milliseconds, the value of `Date.now()`), `today` (the local calendar
  date string produced by `getTodayString()`), and `tz` (the fixed offset
  local-minus-UTC in milliseconds of the device timezone, so that the epoch
  instant of local wall-clock time `w` is `w - tz`).
* JavaScript numbers holding integral second/millisecond counts are modelled
  as `Nat` (elapsed seconds, durations of habits) or `Int` (signed ledger
  durations, epoch milliseconds).
* `new Date("YYYY-MM-DD")` parses a date-only string as *UTC* midnight
  (ECMAScript date-time string format); an unparsable string yields an
  invalid date whose `getTime()` is NaN, and every `<=`/`<` comparison with
  NaN is false.  This is modelled by `jsDateParseMs : String -> Option Int`
  with the `none` case propagating to a false window test.
* `new Date(y, m-1, d)` builds *local* midnight with month/day rollover and
  the two-digit-year rule; modelled by `jsMakeDay` / `jsDateLocalMs`.
* `HistoryItem.id` (built from `Date.now()` and `Math.random()`) and
  `timestampStr` (`toLocaleString()` rendering) are display-only and carry
  no engine semantics; they are omitted from the record.
-/

namespace HabitApp

/-- `type Mode = 'stopwatch' | 'timer'` — `timer` is countdown mode. -/
inductive Mode where
  | stopwatch
  | timer
deriving DecidableEq

/-- The `mode` field of a history item: `Mode | 'manual' | 'adjustment'`. -/
inductive RecordKind where
  | stopwatch
  | timer
  | manual
  | adjustment
deriving DecidableEq

/-- Injection of the habit mode union member into the record kind union. -/
def Mode.toRecordKind : Mode → RecordKind
  | Mode.stopwatch => RecordKind.stopwatch
  | Mode.timer => RecordKind.timer

/-- `type GoalPeriod = 'daily' | 'weekly' | 'monthly' | 'custom'`. -/
inductive GoalPeriod where
  | daily
  | weekly
  | monthly
  | custom
deriving DecidableEq

/-- `interface Habit` of the source. -/
structure Habit where
  id : String
  name : String
  category : Option String
  color : String
  selectedMode : Mode
  timerDuration : Nat
  timerInput : String
  elapsed : Nat
  isRunning : Bool
  streak : Nat
  lastLogDate : String
deriving DecidableEq

/-- `interface HistoryItem` of the source (without the display-only
`id` and `timestampStr` fields, see the module comment). -/
structure HistoryItem where
  habitName : String
  duration : Int
  mode : RecordKind
  timestampMs : Int
  color : String
deriving DecidableEq

/-- `interface Goal` of the source. -/
structure Goal where
  habitId : String
  targetMinutes : Int
  period : GoalPeriod
  startDate : Option String
  endDate : Option String
deriving DecidableEq

/-- The engine-relevant React state: `habits`, `history`, `goals`. -/
structure EngineState where
  habits : List Habit
  history : List HistoryItem
  goals : List Goal
deriving DecidableEq

/-- `adjustType` state of the adjustment modal: `'add' | 'remove'`. -/
inductive AdjustType where
  | add
  | remove
deriving DecidableEq

/-! ## Date helpers (JavaScript `Date` semantics) -/

/-- Day number of a civil date (days since 1970-01-01, proleptic Gregorian
calendar), for `1 ≤ m ≤ 12`.  Standard days-from-civil computation. -/
def daysFromCivil (y : Int) (m : Nat) (d : Nat) : Int :=
  let y' : Int := if m ≤ 2 then y - 1 else y
  let era : Int := Int.fdiv y' 400
  let yoe : Int := y' - era * 400
  let mp : Int := if m ≤ 2 then (m : Int) + 9 else (m : Int) - 3
  let doy : Int := Int.fdiv (153 * mp + 2) 5 + (d : Int) - 1
  let doe : Int := yoe * 365 + Int.fdiv yoe 4 - Int.fdiv yoe 100 + doy
  era * 146097 + doe - 719468

/-- Numeric value of a decimal digit character, `none` otherwise. -/
def digitVal (c : Char) : Option Nat :=
  if c.isDigit then some (c.toNat - 48) else none

/-- Parser for the exact shape `^\d{4}-\d{2}-\d{2}$` (the `datePattern`
regex of `saveManualLog`, and the shape `split('-').map(Number)` consumes),
returning the three numeric components. -/
def parseYmd (s : String) : Option (Int × Nat × Nat) :=
  match s.toList with
  | [y1, y2, y3, y4, s1, m1, m2, s2, d1, d2] =>
    if s1 = '-' ∧ s2 = '-' then
      match digitVal y1, digitVal y2, digitVal y3, digitVal y4,
            digitVal m1, digitVal m2, digitVal d1, digitVal d2 with
      | some a, some b, some c, some d, some e, some f, some g, some h =>
        some (((a * 1000 + b * 100 + c * 10 + d : Nat) : Int), e * 10 + f, g * 10 + h)
      | _, _, _, _, _, _, _, _ => none
    else none
  | _ => none

/-- Number of days in a month of the proleptic Gregorian calendar. -/
def daysInMonth (y : Int) (m : Nat) : Nat :=
  if m = 2 then
    if (Int.emod y 4 = 0 ∧ Int.emod y 100 ≠ 0) ∨ Int.emod y 400 = 0 then 29 else 28
  else if m = 4 ∨ m = 6 ∨ m = 9 ∨ m = 11 then 30 else 31

/-- `new Date(str).getTime()` for a date-only string: the ECMAScript
date-time string format interprets `"YYYY-MM-DD"` as *UTC* midnight;
out-of-range components give an invalid date (`NaN`, modelled `none`). -/
def jsDateParseMs (s : String) : Option Int :=
  match parseYmd s with
  | some (y, m, d) =>
    if 1 ≤ m ∧ m ≤ 12 ∧ 1 ≤ d ∧ d ≤ daysInMonth y m then
      some (daysFromCivil y m d * 86400000)
    else none
  | none => none

/-- ECMAScript `MakeDay`: day number for year `y`, zero-based month index
and day-of-month, with month and day rollover. -/
def jsMakeDay (y : Int) (monthIndex : Int) (day : Int) : Int :=
  let ym : Int := y + Int.fdiv monthIndex 12
  let mn : Nat := (Int.emod monthIndex 12).toNat + 1
  daysFromCivil ym mn 1 + (day - 1)

/-- `new Date(y, monthIndex, day).getTime()` in a fixed-offset timezone
`tz` (local minus UTC, milliseconds): *local* midnight of the (rolled-over)
date, with the two-digit-year rule `0 ≤ y ≤ 99 → y + 1900`. -/
def jsDateLocalMs (tz : Int) (y : Int) (monthIndex : Int) (day : Int) : Int :=
  let yr : Int := if 0 ≤ y ∧ y ≤ 99 then y + 1900 else y
  jsMakeDay yr monthIndex day * 86400000 - tz

/-- `new Date().setHours(0,0,0,0)` for a clock reading `now` in a
fixed-offset timezone `tz`: epoch milliseconds of the current local
midnight. -/
def localMidnight (now tz : Int) : Int :=
  Int.fdiv (now + tz) 86400000 * 86400000 - tz

/-! ## The engine operations -/

/-- `saveSession(name, duration, mode, color, timestamp?)` of the source:
drops `duration === 0`; for positive durations bumps the streak of every
habit with the same name using *today's* date string; always (for nonzero
duration) prepends a history record timestamped `timestamp || Date.now()`
(so a literal timestamp `0` falls back to `Date.now()`, JavaScript
falsiness). -/
def saveSession (today : String) (now : Int) (name : String) (duration : Int)
    (mode : RecordKind) (color : String) (timestamp : Option Int)
    (s : EngineState) : EngineState :=
  if duration = 0 then s
  else
    { s with
      habits := s.habits.map (fun h =>
        if h.name = name ∧ duration > 0 then
          { h with
            streak := if h.lastLogDate = today then h.streak else h.streak + 1,
            lastLogDate := today }
        else h),
      history :=
        { habitName := name
          duration := duration
          mode := mode
          timestampMs :=
            match timestamp with
            | some t => if t = 0 then now else t
            | none => now
          color := color } :: s.history }

/-- One step of the per-habit timer map inside the interval callback:
countdown habits reset to idle upon `elapsed + 1 >= timerDuration`
(without any ledger write), stopwatch habits keep counting. -/
def tickHabit (h : Habit) : Habit :=
  if h.isRunning then
    if h.selectedMode = Mode.timer then
      if h.timerDuration ≤ h.elapsed + 1 then { h with isRunning := false, elapsed := 0 }
      else { h with elapsed := h.elapsed + 1 }
    else { h with elapsed := h.elapsed + 1 }
  else h

/-- The 1-second interval callback: a complete no-op while
`isDraggingRef.current` is set; otherwise an identity early-return when no
habit runs, else the `tickHabit` map.  Only `habits` is ever written. -/
def tick (isDragging : Bool) (s : EngineState) : EngineState :=
  if isDragging then s
  else if s.habits.any (fun h => h.isRunning) then
    { s with habits := s.habits.map tickHabit }
  else s

/-- `n` unsuppressed ticks. -/
def tickN : Nat → EngineState → EngineState
  | 0, s => s
  | n + 1, s => tickN n (tick false s)

/-- `parseInt(h.timerInput) || 1` on the whole-minute input string (the
input strings reachable in the app are decimal numerals, for which
JavaScript `parseInt` agrees with `String.toNat?`; `parseInt` of a
non-numeral is NaN, falsy like `0`, hence the `1` fallback). -/
def parseIntOr1 (s : String) : Nat :=
  match s.toNat? with
  | some 0 => 1
  | some n => n
  | none => 1

/-- The per-habit body of `toggleRunHabit`'s `setHabits` updater: a
matching running habit is stopped, a matching idle habit is started with
the effective countdown duration, every other habit is untouched. -/
def toggleStep (id : String) (h : Habit) : Habit :=
  if h.id = id then
    if h.isRunning then { h with isRunning := false, elapsed := 0 }
    else
      { h with
        isRunning := true,
        timerDuration :=
          if h.selectedMode = Mode.timer then parseIntOr1 h.timerInput * 60
          else h.timerDuration }
  else h

/-- `toggleRunHabit(id)`: the `setHabits` updater maps `toggleStep` over
the habits; for each matching habit that was running, `saveSession` was
invoked with its pre-stop fields, queueing streak/history updates that
React applies after this map (in list order). -/
def toggleRunHabit (today : String) (now : Int) (id : String)
    (s : EngineState) : EngineState :=
  (s.habits.filter (fun h => decide (h.id = id) && h.isRunning)).foldl
    (fun st h =>
      saveSession today now h.name (h.elapsed : Int) h.selectedMode.toRecordKind
        h.color none st)
    { s with habits := s.habits.map (toggleStep id) }

/-- The confirmed branch of `deleteHabit(id)` (the `Alert` confirmation
dialog is presentation): drops the habit and every goal referencing it;
`history` is untouched. -/
def deleteHabit (id : String) (s : EngineState) : EngineState :=
  { s with
    habits := s.habits.filter (fun h => decide (h.id ≠ id)),
    goals := s.goals.filter (fun g => decide (g.habitId ≠ id)) }

/-- `switchMode(id, newMode)`: unconditionally sets the mode, clears
`elapsed` and stops the habit — there is no `Idle`-only guard. -/
def switchMode (id : String) (newMode : Mode) (s : EngineState) : EngineState :=
  { s with
    habits := s.habits.map (fun h =>
      if h.id = id then
        { h with selectedMode := newMode, elapsed := 0, isRunning := false }
      else h) }

/-- `saveManualLog()`: finds the habit, validates `parseInt(minutes) > 0`
(`none` models a NaN parse) and the date pattern, and logs
`minutes * 60` seconds of kind `manual` stamped at *local* midnight of the
entered date (`new Date(y, m - 1, d).getTime()`). -/
def saveManualLog (today : String) (now tz : Int) (manualHabitId : String)
    (manualDate : String) (manualMinutes : Option Int)
    (s : EngineState) : EngineState :=
  match s.habits.find? (fun h => decide (h.id = manualHabitId)) with
  | none => s
  | some habit =>
    match manualMinutes with
    | none => s
    | some mins =>
      if mins ≤ 0 then s
      else
        match parseYmd manualDate with
        | none => s
        | some (y, m, d) =>
          saveSession today now habit.name (mins * 60) RecordKind.manual habit.color
            (some (jsDateLocalMs tz y ((m : Int) - 1) (d : Int))) s

/-- `saveAdjustment()`: validates `parseInt(minutes) > 0` (`none` models a
NaN parse) and logs `±minutes * 60` seconds of kind `adjustment` at the
current instant. -/
def saveAdjustment (today : String) (now : Int) (adjustHabitName adjustHabitColor : String)
    (adjustMinutes : Option Int) (adjustType : AdjustType)
    (s : EngineState) : EngineState :=
  match adjustMinutes with
  | none => s
  | some mins =>
    if mins > 0 then
      saveSession today now adjustHabitName
        (if adjustType = AdjustType.add then mins * 60 else -(mins * 60))
        RecordKind.adjustment adjustHabitColor none s
    else s

/-- `getGoalProgress(habitId, goal)`: filters the history by the habit's
current name and the goal's period window and returns
`Math.floor(totalSeconds / 60)`. -/
def getGoalProgress (now tz : Int) (s : EngineState) (habitId : String)
    (goal : Goal) : Int :=
  let oneDay : Int := 24 * 60 * 60 * 1000
  let filtered : List HistoryItem := s.history.filter (fun item =>
    match s.habits.find? (fun h => decide (h.id = habitId)) with
    | none => false
    | some habit =>
      if item.habitName ≠ habit.name then false
      else
        match goal.period with
        | GoalPeriod.daily => decide (localMidnight now tz ≤ item.timestampMs)
        | GoalPeriod.weekly => decide (now - item.timestampMs < 7 * oneDay)
        | GoalPeriod.monthly => decide (now - item.timestampMs < 30 * oneDay)
        | GoalPeriod.custom =>
          match goal.startDate, goal.endDate with
          | some sd, some ed =>
            match jsDateParseMs sd, jsDateParseMs ed with
            | some a, some b =>
              decide (a ≤ item.timestampMs ∧ item.timestampMs < b + oneDay)
            | _, _ => false
          | _, _ => false)
  let total : Int := filtered.foldl (fun acc curr => acc + curr.duration) 0
  Int.fdiv total 60

/-! ## Derived predicates used to state the verified properties -/

/-- The streak calculator (spec §4.3) as a standalone pure step: the update
`saveSession` performs on each habit for a positive-duration completion,
keyed on *today's* local date string. -/
def streakStep (today name : String) (h : Habit) : Habit :=
  if h.name = name then
    { h with
      streak := if h.lastLogDate = today then h.streak else h.streak + 1,
      lastLogDate := today }
  else h

/-- The goal-window membership test of `getGoalProgress`, extracted. -/
def inWindow (now tz : Int) (goal : Goal) (ts : Int) : Bool :=
  match goal.period with
  | GoalPeriod.daily => decide (localMidnight now tz ≤ ts)
  | GoalPeriod.weekly => decide (now - ts < 7 * (24 * 60 * 60 * 1000))
  | GoalPeriod.monthly => decide (now - ts < 30 * (24 * 60 * 60 * 1000))
  | GoalPeriod.custom =>
    match goal.startDate, goal.endDate with
    | some sd, some ed =>
      match jsDateParseMs sd, jsDateParseMs ed with
      | some a, some b => decide (a ≤ ts ∧ ts < b + 24 * 60 * 60 * 1000)
      | _, _ => false
    | _, _ => false

/-- No ledger record has `durationSeconds = 0`. -/
def noZero (s : EngineState) : Bool :=
  s.history.all (fun r => decide (r.duration ≠ 0))

/-- Every countdown habit's elapsed time is within its target duration. -/
def cdBound (s : EngineState) : Prop :=
  ∀ h ∈ s.habits, h.selectedMode = Mode.timer → h.elapsed ≤ h.timerDuration

/-- The custom-goal window exactly as the specification words it:
`[startDate 00:00 local, endDate 00:00 local + 24h)`, where local midnight
of a calendar date in a fixed-offset timezone `tz` is its UTC midnight
minus `tz`.  This is the spec-side definition, to be compared with the
window `getGoalProgress` actually computes. -/
def specCustomContains (tz : Int) (sd ed : String) (ts : Int) : Bool :=
  match jsDateParseMs sd, jsDateParseMs ed with
  | some a, some b =>
    decide ((a - tz) ≤ ts ∧ ts < (b - tz) + 24 * 60 * 60 * 1000)
  | _, _ => false

/-! ## Concrete states for the counterexamples and witnesses -/

/-- A countdown habit one second away from completion. -/
def cdHabit : Habit :=
  { id := "h1", name := "Meditate", category := none, color := "#9b59b6"
    selectedMode := Mode.timer, timerDuration := 60, timerInput := "1"
    elapsed := 59, isRunning := true, streak := 0, lastLogDate := "" }

def cdState : EngineState := { habits := [cdHabit], history := [], goals := [] }

/-- An idle stopwatch habit with no completions yet. -/
def swHabit : Habit :=
  { id := "h1", name := "Reading", category := none, color := "#e74c3c"
    selectedMode := Mode.stopwatch, timerDuration := 60, timerInput := "1"
    elapsed := 0, isRunning := false, streak := 0, lastLogDate := "" }

def swIdleState : EngineState := { habits := [swHabit], history := [], goals := [] }

/-- The stopwatch scenario: started, then 125 (unsuppressed) ticks. -/
def swRunState : EngineState :=
  tickN 125 (toggleRunHabit "2024-01-01" 1704103200000 "h1" swIdleState)

def swRunHabit : Habit := { swHabit with isRunning := true, elapsed := 125 }

/-- A habit whose last streak-advancing date is 2024-01-01. -/
def c3Habit : Habit := { swHabit with streak := 7, lastLogDate := "2024-01-01" }

def c3State : EngineState := { habits := [c3Habit], history := [], goals := [] }

/-- A record at local 2024-01-03 23:00 in timezone UTC-5 (epoch
milliseconds `utcMidnight(2024-01-03) + 23h + 5h`). -/
def c4Record : HistoryItem :=
  { habitName := "Reading", duration := 1200, mode := RecordKind.manual
    timestampMs := 19725 * 86400000 + 28 * 3600000, color := "#e74c3c" }

def c4State : EngineState := { habits := [swHabit], history := [c4Record], goals := [] }

def c4Goal : Goal :=
  { habitId := "h1", targetMinutes := 60, period := GoalPeriod.custom
    startDate := some "2024-01-01", endDate := some "2024-01-03" }

/-- A record at 2024-01-03 23:00 UTC (for the UTC-timezone reading). -/
def c4WRecord : HistoryItem :=
  { habitName := "Reading", duration := 1200, mode := RecordKind.manual
    timestampMs := 19725 * 86400000 + 23 * 3600000, color := "#e74c3c" }

def c4WState : EngineState := { habits := [swHabit], history := [c4WRecord], goals := [] }

/-- A running stopwatch habit mid-session. -/
def c6Habit : Habit := { swHabit with isRunning := true, elapsed := 5 }

def c6State : EngineState := { habits := [c6Habit], history := [], goals := [] }

/-- The +20-minute session followed by the -5-minute adjustment, both at
midday of 2024-01-01 (UTC clock). -/
def c5State : EngineState :=
  saveAdjustment "2024-01-01" 1704110400000 "Reading" "#e74c3c" (some 5)
    AdjustType.remove
    (saveSession "2024-01-01" 1704110400000 "Reading" 1200 RecordKind.stopwatch
      "#e74c3c" none swIdleState)

def c5Goal : Goal :=
  { habitId := "h1", targetMinutes := 60, period := GoalPeriod.daily
    startDate := none, endDate := none }

def c5Habit : Habit := { swHabit with streak := 1, lastLogDate := "2024-01-01" }

/-- A second habit, for the frame conditions of habit deletion. -/
def otherHabit : Habit :=
  { id := "h2", name := "Walking", category := none, color := "#2ecc71"
    selectedMode := Mode.stopwatch, timerDuration := 60, timerInput := "1"
    elapsed := 0, isRunning := false, streak := 0, lastLogDate := "" }

def c9Goal : Goal :=
  { habitId := "h1", targetMinutes := 60, period := GoalPeriod.weekly
    startDate := none, endDate := none }

def c9Record : HistoryItem :=
  { habitName := "Reading", duration := 300, mode := RecordKind.stopwatch
    timestampMs := 1704110400000, color := "#e74c3c" }

def c9State : EngineState :=
  { habits := [c6Habit, otherHabit], history := [c9Record], goals := [c9Goal] }

def c7State : EngineState :=
  { habits := [swHabit], history := [c9Record], goals := [] }

/-! ## Helper lemmas -/

theorem saveSession_of_zero (today : String) (now : Int) (name : String)
    (mode : RecordKind) (color : String) (ts : Option Int) (s : EngineState) :
    saveSession today now name 0 mode color ts s = s := by
  simp [saveSession]

theorem saveSession_history_of_ne (today : String) (now : Int) (name : String)
    (d : Int) (mode : RecordKind) (color : String) (s : EngineState)
    (hd : d ≠ 0) :
    (saveSession today now name d mode color none s).history =
      { habitName := name, duration := d, mode := mode, timestampMs := now
        color := color } :: s.history := by
  simp [saveSession, hd]

theorem saveSession_habits_of_neg (today : String) (now : Int) (name : String)
    (d : Int) (mode : RecordKind) (color : String) (ts : Option Int)
    (s : EngineState) (hd : d < 0) :
    (saveSession today now name d mode color ts s).habits = s.habits := by
  have h0 : d ≠ 0 := ne_of_lt hd
  have hnp : ¬(0 : Int) < d := not_lt.mpr (le_of_lt hd)
  simp [saveSession, h0, hnp]

theorem saveSession_habits_of_pos (today : String) (now : Int) (name : String)
    (d : Int) (mode : RecordKind) (color : String) (ts : Option Int)
    (s : EngineState) (hd : 0 < d) :
    (saveSession today now name d mode color ts s).habits =
      s.habits.map (streakStep today name) := by
  have h0 : d ≠ 0 := ne_of_gt hd
  simp only [saveSession, if_neg h0]
  apply List.map_congr_left
  intro h _
  by_cases hn : h.name = name <;> simp [streakStep, hn, hd]

theorem saveSession_noZero (today : String) (now : Int) (name : String)
    (d : Int) (mode : RecordKind) (color : String) (ts : Option Int)
    (s : EngineState) (hs : noZero s = true) :
    noZero (saveSession today now name d mode color ts s) = true := by
  by_cases h0 : d = 0
  · simpa [saveSession, h0] using hs
  · simp only [noZero, saveSession, if_neg h0, List.all_cons, Bool.and_eq_true,
      decide_eq_true_eq]
    exact ⟨h0, hs⟩

theorem noZero_foldl (today : String) (now : Int) (l : List Habit)
    (st : EngineState) (hs : noZero st = true) :
    noZero (l.foldl (fun st h =>
      saveSession today now h.name (h.elapsed : Int) h.selectedMode.toRecordKind
        h.color none st) st) = true := by
  induction l generalizing st with
  | nil => simpa using hs
  | cons a l ih =>
    exact ih _ (saveSession_noZero _ _ _ _ _ _ _ _ hs)

theorem saveSession_habits_shape (today : String) (now : Int) (name : String)
    (d : Int) (mode : RecordKind) (color : String) (ts : Option Int)
    (s : EngineState) (x : Habit)
    (hx : x ∈ (saveSession today now name d mode color ts s).habits) :
    ∃ y ∈ s.habits, x.id = y.id ∧ x.isRunning = y.isRunning ∧
      x.elapsed = y.elapsed ∧ x.selectedMode = y.selectedMode := by
  by_cases h0 : d = 0
  · exact ⟨x, by simpa [saveSession, h0] using hx, rfl, rfl, rfl, rfl⟩
  · simp only [saveSession, if_neg h0] at hx
    obtain ⟨y, hy, rfl⟩ := List.mem_map.mp hx
    refine ⟨y, hy, ?_, ?_, ?_, ?_⟩ <;>
      by_cases hc : y.name = name ∧ 0 < d <;> simp [hc]

theorem toggleStep_id (id : String) (h : Habit) : (toggleStep id h).id = h.id := by
  unfold toggleStep
  split
  · split <;> rfl
  · rfl

theorem toggleStep_of_running (id : String) (h : Habit) (hid : h.id = id)
    (hr : h.isRunning = true) :
    toggleStep id h = { h with isRunning := false, elapsed := 0 } := by
  simp [toggleStep, hid, hr]

theorem filter_and_eq_nil {α : Type} (p q : α → Bool) (l : List α)
    (hl : l.filter p = []) : l.filter (fun a => p a && q a) = [] := by
  induction l with
  | nil => rfl
  | cons a l ih =>
    by_cases hp : p a = true
    · simp [List.filter_cons, hp] at hl
    · rw [List.filter_cons_of_neg hp] at hl
      rw [List.filter_cons_of_neg (by simp [hp])]
      exact ih hl

theorem filter_and_eq_singleton {α : Type} (p q : α → Bool) (l : List α) (h : α)
    (hl : l.filter p = [h]) (hq : q h = true) :
    l.filter (fun a => p a && q a) = [h] := by
  induction l with
  | nil => simp at hl
  | cons a l ih =>
    by_cases hp : p a = true
    · rw [List.filter_cons_of_pos hp] at hl
      injection hl with h1 h2
      subst h1
      rw [List.filter_cons_of_pos (by simp [hp, hq]), filter_and_eq_nil p q l h2]
    · rw [List.filter_cons_of_neg hp] at hl
      rw [List.filter_cons_of_neg (by simp [hp])]
      exact ih hl

theorem tick_history (b : Bool) (s : EngineState) : (tick b s).history = s.history := by
  unfold tick
  split
  · rfl
  · split <;> rfl

theorem tickN_history (n : Nat) (s : EngineState) : (tickN n s).history = s.history := by
  induction n generalizing s with
  | zero => rfl
  | succ n ih => rw [tickN, ih, tick_history]

theorem tickHabit_selectedMode (h : Habit) :
    (tickHabit h).selectedMode = h.selectedMode := by
  unfold tickHabit
  split
  · split
    · split <;> rfl
    · rfl
  · rfl

theorem tickHabit_timerDuration (h : Habit) :
    (tickHabit h).timerDuration = h.timerDuration := by
  unfold tickHabit
  split
  · split
    · split <;> rfl
    · rfl
  · rfl

theorem tickHabit_bound (h : Habit)
    (hb : h.selectedMode = Mode.timer → h.elapsed ≤ h.timerDuration) :
    (tickHabit h).selectedMode = Mode.timer →
      (tickHabit h).elapsed ≤ (tickHabit h).timerDuration := by
  rw [tickHabit_selectedMode, tickHabit_timerDuration]
  intro hm
  unfold tickHabit
  by_cases hr : h.isRunning = true
  · by_cases hc : h.timerDuration ≤ h.elapsed + 1
    · simp [hr, hm, hc]
    · simp only [hr, if_true, hm, if_pos, if_neg hc]
      omega
  · simp only [hr, if_false]
    exact hb hm

theorem tickHabit_complete (h : Habit) (hr : h.isRunning = true)
    (hm : h.selectedMode = Mode.timer) (hc : h.timerDuration ≤ h.elapsed + 1) :
    tickHabit h = { h with isRunning := false, elapsed := 0 } := by
  simp [tickHabit, hr, hm, hc]

theorem tick_cdBound (s : EngineState) (hs : cdBound s) : cdBound (tick false s) := by
  unfold tick
  simp only [Bool.false_eq_true, if_false]
  split
  · intro x hx
    obtain ⟨y, hy, rfl⟩ := List.mem_map.mp hx
    exact tickHabit_bound y (hs y hy)
  · exact hs

theorem tickN_cdBound (n : Nat) (s : EngineState) (hs : cdBound s) :
    cdBound (tickN n s) := by
  induction n generalizing s with
  | zero => exact hs
  | succ n ih => exact ih _ (tick_cdBound s hs)

theorem foldl_add_eq_sum (l : List HistoryItem) :
    l.foldl (fun acc curr => acc + curr.duration) 0 =
      (l.map HistoryItem.duration).sum := by
  suffices hgen : ∀ a : Int, l.foldl (fun acc curr => acc + curr.duration) a =
      a + (l.map HistoryItem.duration).sum by
    simpa using hgen 0
  induction l with
  | nil => intro a; simp
  | cons x l ih => intro a; simp [ih, add_assoc]

theorem filter_ext {α : Type} (p q : α → Bool) (l : List α)
    (hpq : ∀ x ∈ l, p x = q x) : l.filter p = l.filter q := by
  induction l with
  | nil => rfl
  | cons a l ih =>
    rw [List.filter_cons, List.filter_cons, hpq a (by simp),
      ih (fun x hx => hpq x (by simp [hx]))]

/-! ## The verified claims -/

/-- C1 (amended): for a countdown habit, the tick that reaches
`targetDurationSeconds` transitions the habit to Idle with
`elapsedSeconds = 0` but appends *no* ledger record — completion is
silently discarded; under any sequence of ticks `elapsedSeconds` never
exceeds `targetDurationSeconds`. -/
theorem countdown_completion_silent (s : EngineState) (n : Nat) (x g : Habit)
    (hb : cdBound s)
    (hx : x ∈ (tickN n s).habits) (hxm : x.selectedMode = Mode.timer)
    (_hg : g ∈ s.habits) (hgr : g.isRunning = true)
    (hgm : g.selectedMode = Mode.timer) (hgc : g.timerDuration ≤ g.elapsed + 1) :
    (tickN n s).history = s.history ∧ x.elapsed ≤ x.timerDuration ∧
      tickHabit g = { g with isRunning := false, elapsed := 0 } :=
  ⟨tickN_history n s, tickN_cdBound n s hb x hx hxm,
    tickHabit_complete g hgr hgm hgc⟩

/-- Witness for C1 at a countdown habit one second from its target. -/
theorem countdown_completion_silent_witness :
    (tickN 1 cdState).history = cdState.history ∧
      ({ cdHabit with isRunning := false, elapsed := 0 } : Habit).elapsed ≤
        ({ cdHabit with isRunning := false, elapsed := 0 } : Habit).timerDuration ∧
      tickHabit cdHabit = { cdHabit with isRunning := false, elapsed := 0 } :=
  countdown_completion_silent cdState 1 { cdHabit with isRunning := false, elapsed := 0 }
    cdHabit (by unfold cdBound; decide) (by decide) (by decide) (by decide) (by decide)
    (by decide) (by decide)

/-- C1 counterexample: the completing tick of a running countdown habit
(59 of 60 seconds elapsed) resets it to Idle but the ledger stays empty —
no SessionRecord of `durationSeconds = targetDurationSeconds` is
auto-committed. -/
theorem countdown_autocommit_refuted :
    (tick false cdState).habits = [{ cdHabit with isRunning := false, elapsed := 0 }] ∧
      (tick false cdState).history = [] ∧
      ¬(tick false cdState).history.length = 1 := by
  decide

/-- C2: stopping a running habit with `elapsedSeconds = 0` appends no
record; with `elapsedSeconds > 0` it appends exactly one record of
`durationSeconds = elapsedSeconds` and `kind` equal to the habit's mode;
either way the habit ends Idle with `elapsedSeconds = 0`. -/
theorem stop_logs_elapsed (today : String) (now : Int) (id : String)
    (s : EngineState) (h x : Habit)
    (hf : s.habits.filter (fun a => decide (a.id = id)) = [h])
    (hr : h.isRunning = true)
    (hx : x ∈ (toggleRunHabit today now id s).habits) (hxid : x.id = id) :
    (h.elapsed = 0 → (toggleRunHabit today now id s).history = s.history) ∧
      (h.elapsed ≠ 0 → (toggleRunHabit today now id s).history =
        { habitName := h.name, duration := (h.elapsed : Int)
          mode := h.selectedMode.toRecordKind, timestampMs := now
          color := h.color } :: s.history) ∧
      x.isRunning = false ∧ x.elapsed = 0 := by
  have hpend : s.habits.filter (fun a => decide (a.id = id) && a.isRunning) = [h] :=
    filter_and_eq_singleton _ _ _ _ hf hr
  have heq : toggleRunHabit today now id s =
      saveSession today now h.name (h.elapsed : Int) h.selectedMode.toRecordKind
        h.color none { s with habits := s.habits.map (toggleStep id) } := by
    rw [toggleRunHabit, hpend]
    rfl
  refine ⟨?_, ?_, ?_⟩
  · intro h0
    rw [heq, h0]
    simp [saveSession]
  · intro hne
    rw [heq, saveSession_history_of_ne _ _ _ _ _ _ _ (Int.natCast_ne_zero.mpr hne)]
  · rw [heq] at hx
    obtain ⟨y, hy, hid, hrun, hel, _⟩ :=
      saveSession_habits_shape _ _ _ _ _ _ _ _ x hx
    obtain ⟨z, hz, rfl⟩ := List.mem_map.mp hy
    have hzid : z.id = id := by rw [← toggleStep_id id z, ← hid]; exact hxid
    have hzf : z ∈ s.habits.filter (fun a => decide (a.id = id)) :=
      List.mem_filter.mpr ⟨hz, by simp [hzid]⟩
    rw [hf, List.mem_singleton] at hzf
    subst hzf
    rw [toggleStep_of_running id z hzid hr] at hrun hel
    exact ⟨hrun, hel⟩

set_option maxRecDepth 40000 in
/-- Witness for C2: the "Reading" stopwatch habit started and ticked 125
times, then stopped, yields one record of 125 seconds of kind stopwatch. -/
theorem stop_logs_elapsed_witness :
    (swRunHabit.elapsed = 0 →
      (toggleRunHabit "2024-01-01" 1704103200000 "h1" swRunState).history =
        swRunState.history) ∧
      (swRunHabit.elapsed ≠ 0 →
        (toggleRunHabit "2024-01-01" 1704103200000 "h1" swRunState).history =
          { habitName := swRunHabit.name, duration := (swRunHabit.elapsed : Int)
            mode := swRunHabit.selectedMode.toRecordKind
            timestampMs := 1704103200000
            color := swRunHabit.color } :: swRunState.history) ∧
      ({ swHabit with streak := 1, lastLogDate := "2024-01-01" } : Habit).isRunning = false ∧
      ({ swHabit with streak := 1, lastLogDate := "2024-01-01" } : Habit).elapsed = 0 :=
  stop_logs_elapsed "2024-01-01" 1704103200000 "h1" swRunState swRunHabit
    { swHabit with streak := 1, lastLogDate := "2024-01-01" }
    (by decide) (by decide) (by decide) (by decide)

/-- C3 (amended): `saveSession` applies the streak rule keyed on *today's*
local date (the date at the moment of logging), not the completion
record's own (possibly backdated) calendar date: negative durations leave
the habits untouched, positive durations apply `streakStep today name` to
every habit. -/
theorem streak_update_uses_today (today : String) (now : Int) (name : String)
    (d : Int) (mode : RecordKind) (color : String) (ts : Option Int)
    (s : EngineState) :
    (d < 0 → (saveSession today now name d mode color ts s).habits = s.habits) ∧
      (0 < d → (saveSession today now name d mode color ts s).habits =
        s.habits.map (streakStep today name)) :=
  ⟨fun hd => saveSession_habits_of_neg _ _ _ _ _ _ _ _ hd,
   fun hd => saveSession_habits_of_pos _ _ _ _ _ _ _ _ hd⟩

/-- Witness for C3: a -5-minute adjustment leaves the habit list
untouched; a positive completion applies the streak step for today. -/
theorem streak_update_uses_today_witness :
    (saveSession "2024-01-02" 5 "Reading" (-300) RecordKind.adjustment "#e74c3c"
        none swIdleState).habits = swIdleState.habits ∧
      (saveSession "2024-01-02" 5 "Reading" 1800 RecordKind.manual "#e74c3c"
        none swIdleState).habits =
        swIdleState.habits.map (streakStep "2024-01-02" "Reading") :=
  ⟨(streak_update_uses_today "2024-01-02" 5 "Reading" (-300) RecordKind.adjustment
      "#e74c3c" none swIdleState).1 (by decide),
   (streak_update_uses_today "2024-01-02" 5 "Reading" 1800 RecordKind.manual
      "#e74c3c" none swIdleState).2 (by decide)⟩

/-- C3 counterexample: a manual log backdated to 2024-01-01 — the very
date stored in the habit's `lastCompletionDate` — still increments the
streak (7 to 8) and moves `lastCompletionDate` to *today* (2025-05-05),
while the appended record is dated at local midnight 2024-01-01; the
claim predicted an unchanged streak and a `lastCompletionDate` equal to
the completion's own date. -/
theorem streak_completion_date_refuted :
    c3Habit.lastLogDate = "2024-01-01" ∧ c3Habit.streak = 7 ∧
      (saveManualLog "2025-05-05" 1746400000000 0 "h1" "2024-01-01" (some 30)
          c3State).habits =
        [{ c3Habit with streak := 8, lastLogDate := "2025-05-05" }] ∧
      (saveManualLog "2025-05-05" 1746400000000 0 "h1" "2024-01-01" (some 30)
          c3State).history =
        [{ habitName := "Reading", duration := 1800, mode := RecordKind.manual
           timestampMs := 1704067200000, color := "#e74c3c" }] := by
  decide

/-- C6 (amended): `switchMode` has no Idle-only guard: on any habit with
the given id — running or not — it succeeds, sets the new mode, resets
`elapsedSeconds` to 0 and stops the habit; it never touches the ledger or
the goals. -/
theorem switch_mode_unguarded (id : String) (m : Mode) (s : EngineState)
    (x : Habit) (hx : x ∈ s.habits) (hid : x.id = id) :
    (switchMode id m s).history = s.history ∧
      (switchMode id m s).goals = s.goals ∧
      (switchMode id m s).habits.length = s.habits.length ∧
      { x with selectedMode := m, elapsed := 0, isRunning := false } ∈
        (switchMode id m s).habits := by
  refine ⟨rfl, rfl, by simp [switchMode], ?_⟩
  have hmem := List.mem_map_of_mem (fun h : Habit =>
    if h.id = id then { h with selectedMode := m, elapsed := 0, isRunning := false }
    else h) hx
  simp only [if_pos hid] at hmem
  exact hmem

/-- Witness for C6 on a running habit. -/
theorem switch_mode_unguarded_witness :
    (switchMode "h1" Mode.timer c6State).history = c6State.history ∧
      (switchMode "h1" Mode.timer c6State).goals = c6State.goals ∧
      (switchMode "h1" Mode.timer c6State).habits.length = c6State.habits.length ∧
      { c6Habit with selectedMode := Mode.timer, elapsed := 0, isRunning := false } ∈
        (switchMode "h1" Mode.timer c6State).habits :=
  switch_mode_unguarded "h1" Mode.timer c6State c6Habit (by decide) (by decide)

/-- C6 counterexample: invoking `switchMode` on a Running habit does not
fail and does not leave the state unchanged — the habit is stopped, its
elapsed time cleared and its mode switched. -/
theorem switch_mode_invalid_transition_refuted :
    switchMode "h1" Mode.timer c6State ≠ c6State ∧
      (switchMode "h1" Mode.timer c6State).habits =
        [{ c6Habit with selectedMode := Mode.timer, elapsed := 0, isRunning := false }] ∧
      c6Habit.isRunning = true := by
  decide

/-- C8: while the drag suppression flag is set, a delivered tick is the
identity on the whole engine state — snapshot equality. -/
theorem suppressed_tick_is_identity (s : EngineState) : tick true s = s := by
  simp [tick]

/-- C9: deleting a habit removes exactly the goals referencing it, leaves
the ledger unchanged (so a running habit's in-flight time is discarded
without a record), and removes exactly the habits with that id. -/
theorem delete_habit_cascades_goals_keeps_history (id : String)
    (s : EngineState) (g : Goal) (x : Habit) (hg : g ∈ s.goals)
    (hx : x ∈ s.habits) :
    (deleteHabit id s).history = s.history ∧
      (g.habitId = id → g ∉ (deleteHabit id s).goals) ∧
      (g.habitId ≠ id → g ∈ (deleteHabit id s).goals) ∧
      (x.id = id → x ∉ (deleteHabit id s).habits) ∧
      (x.id ≠ id → x ∈ (deleteHabit id s).habits) := by
  refine ⟨rfl, ?_, ?_, ?_, ?_⟩
  · intro he hmem
    have hp := (List.mem_filter.mp hmem).2
    simp [he] at hp
  · intro hne
    exact List.mem_filter.mpr ⟨hg, by simp [hne]⟩
  · intro he hmem
    have hp := (List.mem_filter.mp hmem).2
    simp [he] at hp
  · intro hne
    exact List.mem_filter.mpr ⟨hx, by simp [hne]⟩

/-- Witness for C9: deleting the running habit `"h1"` drops its goal,
keeps the other habit and the past record. -/
theorem delete_habit_cascades_goals_keeps_history_witness :
    (deleteHabit "h1" c9State).history = c9State.history ∧
      (c9Goal.habitId = "h1" → c9Goal ∉ (deleteHabit "h1" c9State).goals) ∧
      (c9Goal.habitId ≠ "h1" → c9Goal ∈ (deleteHabit "h1" c9State).goals) ∧
      (otherHabit.id = "h1" → otherHabit ∉ (deleteHabit "h1" c9State).habits) ∧
      (otherHabit.id ≠ "h1" → otherHabit ∈ (deleteHabit "h1" c9State).habits) :=
  delete_habit_cascades_goals_keeps_history "h1" c9State c9Goal otherHabit
    (by decide) (by decide)

/-- C10: a positive adjustment gets the same streak treatment as a
completed session — a matching habit whose `lastCompletionDate` differs
from today gets `streak + 1` and `lastCompletionDate = today` — while a
negative (`remove`) adjustment leaves every habit unchanged. -/
theorem positive_adjustment_bumps_streak (today : String) (now : Int)
    (name color : String) (mins : Int) (s : EngineState) (x : Habit)
    (hm : 0 < mins) (hx : x ∈ s.habits) (hname : x.name = name)
    (hdate : x.lastLogDate ≠ today) :
    { x with streak := x.streak + 1, lastLogDate := today } ∈
        (saveAdjustment today now name color (some mins) AdjustType.add s).habits ∧
      (saveAdjustment today now name color (some mins) AdjustType.remove s).habits =
        s.habits := by
  have hpos : (0 : Int) < mins * 60 := by positivity
  constructor
  · have hred : saveAdjustment today now name color (some mins) AdjustType.add s =
        saveSession today now name (mins * 60) RecordKind.adjustment color none s := by
      simp [saveAdjustment, hm]
    rw [hred, saveSession_habits_of_pos _ _ _ _ _ _ _ _ hpos]
    have hmem := List.mem_map_of_mem (streakStep today name) hx
    simp only [streakStep, if_pos hname, if_neg hdate] at hmem
    exact hmem
  · have hred : saveAdjustment today now name color (some mins) AdjustType.remove s =
        saveSession today now name (-(mins * 60)) RecordKind.adjustment color none s := by
      simp [saveAdjustment, hm]
    rw [hred, saveSession_habits_of_neg _ _ _ _ _ _ _ _ (neg_lt_zero.mpr hpos)]

/-- Witness for C10 on the fresh "Reading" habit. -/
theorem positive_adjustment_bumps_streak_witness :
    { swHabit with streak := swHabit.streak + 1, lastLogDate := "2024-01-01" } ∈
        (saveAdjustment "2024-01-01" 1704110400000 "Reading" "#e74c3c" (some 5)
          AdjustType.add swIdleState).habits ∧
      (saveAdjustment "2024-01-01" 1704110400000 "Reading" "#e74c3c" (some 5)
        AdjustType.remove swIdleState).habits = swIdleState.habits :=
  positive_adjustment_bumps_streak "2024-01-01" 1704110400000 "Reading" "#e74c3c"
    5 swIdleState swHabit (by decide) (by decide) (by decide) (by decide)

/-- C4 (amended): for a custom goal whose dates parse, the progress window
is `[startDate 00:00 UTC, endDate 00:00 UTC + 24h)` — the end date is
inclusive of a full 24-hour span, but both bounds come from the UTC-based
date-string parse, not local midnight (they agree only in a UTC-offset-0
timezone). -/
theorem custom_goal_window_utc (now tz : Int) (s : EngineState)
    (habitId : String) (goal : Goal) (habit : Habit) (sd ed : String)
    (a b : Int) (r : HistoryItem)
    (hfind : s.habits.find? (fun h => decide (h.id = habitId)) = some habit)
    (hper : goal.period = GoalPeriod.custom)
    (hsd : goal.startDate = some sd) (hed : goal.endDate = some ed)
    (hpa : jsDateParseMs sd = some a) (hpb : jsDateParseMs ed = some b)
    (hh : s.history = [r]) (hn : r.habitName = habit.name) :
    getGoalProgress now tz s habitId goal =
      if a ≤ r.timestampMs ∧ r.timestampMs < b + 86400000 then
        Int.fdiv r.duration 60
      else 0 := by
  unfold getGoalProgress
  rw [hh]
  simp only [hfind, hper, hsd, hed, hpa, hpb, List.filter_singleton]
  by_cases h1 : a ≤ r.timestampMs <;> by_cases h2 : r.timestampMs < b + 86400000 <;>
    simp [hn, h1, h2, Int.zero_fdiv]

/-- Witness for C4 in the UTC timezone: a record at 2024-01-03 23:00 UTC
is inside the `2024-01-01 .. 2024-01-03` custom window, giving 20
minutes of progress. -/
theorem custom_goal_window_utc_witness :
    getGoalProgress 1704326400000 0 c4WState "h1" c4Goal =
        (if (1704067200000 : Int) ≤ c4WRecord.timestampMs ∧
            c4WRecord.timestampMs < 1704240000000 + 86400000 then
          Int.fdiv c4WRecord.duration 60
        else 0) ∧
      getGoalProgress 1704326400000 0 c4WState "h1" c4Goal = 20 :=
  ⟨custom_goal_window_utc 1704326400000 0 c4WState "h1" c4Goal swHabit
      "2024-01-01" "2024-01-03" 1704067200000 1704240000000 c4WRecord
      (by decide) (by decide) (by decide) (by decide) (by decide) (by decide)
      (by decide) (by decide),
   by decide⟩

/-- C4 counterexample: in the UTC-5 timezone, a record timestamped
2024-01-03 23:00 *local* lies inside the window the specification words
describe (`[startDate 00:00 local, endDate 00:00 local + 24h)`), yet
`getGoalProgress` excludes it and reports 0 instead of 20 — the code
parses the goal dates as UTC midnights. -/
theorem custom_goal_window_local_refuted :
    specCustomContains (-18000000) "2024-01-01" "2024-01-03"
        c4Record.timestampMs = true ∧
      getGoalProgress 1704426000000 (-18000000) c4State "h1" c4Goal = 0 := by
  decide

/-- C5: goal progress is the floor of the signed sum of the durations of
every history record matching the habit's current name and lying in the
goal's window, divided by 60. -/
theorem goal_progress_is_floor_sum (now tz : Int) (s : EngineState)
    (habitId : String) (goal : Goal) (habit : Habit)
    (hfind : s.habits.find? (fun h => decide (h.id = habitId)) = some habit) :
    getGoalProgress now tz s habitId goal =
      Int.fdiv (((s.history.filter (fun item =>
        decide (item.habitName = habit.name) &&
          inWindow now tz goal item.timestampMs)).map HistoryItem.duration).sum)
        60 := by
  obtain ⟨gid, gtm, gper, gsd, ged⟩ := goal
  unfold getGoalProgress
  simp only [hfind]
  rw [foldl_add_eq_sum]
  refine congrArg
    (fun l : List HistoryItem => Int.fdiv ((l.map HistoryItem.duration).sum) 60)
    (filter_ext _ _ _ ?_)
  intro item _
  by_cases hn : item.habitName = habit.name
  · have hne : ¬(item.habitName ≠ habit.name) := by simp [hn]
    rw [if_neg hne]
    cases gper with
    | daily => simp [inWindow, hn]
    | weekly => simp [inWindow, hn]
    | monthly => simp [inWindow, hn]
    | custom =>
      cases gsd with
      | none => simp [inWindow, hn]
      | some sd =>
        cases ged with
        | none => simp [inWindow, hn]
        | some ed =>
          cases jsDateParseMs sd <;> cases jsDateParseMs ed <;>
            simp [inWindow, hn]
  · rw [if_pos hn]
    simp [hn]

/-- Witness for C5: the +20-minute session followed by the -5-minute
adjustment in the same daily window yields progress 15. -/
theorem goal_progress_is_floor_sum_witness :
    getGoalProgress 1704110400000 0 c5State "h1" c5Goal =
        Int.fdiv (((c5State.history.filter (fun item =>
          decide (item.habitName = c5Habit.name) &&
            inWindow 1704110400000 0 c5Goal item.timestampMs)).map
              HistoryItem.duration).sum) 60 ∧
      getGoalProgress 1704110400000 0 c5State "h1" c5Goal = 15 :=
  ⟨goal_progress_is_floor_sum 1704110400000 0 c5State "h1" c5Goal c5Habit
      (by decide),
   by decide⟩

/-- C7: no engine operation ever creates a ledger record with
`durationSeconds = 0`: a zero-duration `saveSession` is the identity (a
silent no-op, not an error), and `saveSession`, `toggleRunHabit` (stop),
`saveManualLog` and `saveAdjustment` all preserve the ledger invariant
that every record has nonzero duration. -/
theorem ledger_never_zero_duration (today : String) (now tz : Int)
    (name id mid manualDate color : String) (d : Int) (mode : RecordKind)
    (ts : Option Int) (mm am : Option Int) (ty : AdjustType)
    (s : EngineState) (hs : noZero s = true) :
    noZero (saveSession today now name d mode color ts s) = true ∧
      noZero (toggleRunHabit today now id s) = true ∧
      noZero (saveManualLog today now tz mid manualDate mm s) = true ∧
      noZero (saveAdjustment today now name color am ty s) = true ∧
      saveSession today now name 0 mode color ts s = s := by
  refine ⟨saveSession_noZero _ _ _ _ _ _ _ _ hs, ?_, ?_, ?_,
    saveSession_of_zero _ _ _ _ _ _ _⟩
  · unfold toggleRunHabit
    exact noZero_foldl _ _ _ _ hs
  · unfold saveManualLog
    split
    · exact hs
    · split
      · exact hs
      · split
        · exact hs
        · split
          · exact hs
          · exact saveSession_noZero _ _ _ _ _ _ _ _ hs
  · unfold saveAdjustment
    split
    · exact hs
    · split
      · exact saveSession_noZero _ _ _ _ _ _ _ _ hs
      · exact hs

/-- Witness for C7 on a state holding one past record. -/
theorem ledger_never_zero_duration_witness :
    noZero (saveSession "2024-01-01" 7 "Reading" 60 RecordKind.stopwatch
        "#e74c3c" none c7State) = true ∧
      noZero (toggleRunHabit "2024-01-01" 7 "h1" c7State) = true ∧
      noZero (saveManualLog "2024-01-01" 7 0 "h1" "2024-01-01" (some 30)
        c7State) = true ∧
      noZero (saveAdjustment "2024-01-01" 7 "Reading" "#e74c3c" (some 5)
        AdjustType.add c7State) = true ∧
      saveSession "2024-01-01" 7 "Reading" 0 RecordKind.stopwatch "#e74c3c"
        none c7State = c7State :=
  ledger_never_zero_duration "2024-01-01" 7 0 "Reading" "h1" "h1" "2024-01-01"
    "#e74c3c" 60 RecordKind.stopwatch none (some 30) (some 5) AdjustType.add
    c7State (by decide)

end HabitApp
